import Mathlib

/-!
Shallow embedding of the RPI-WEB light controller (src/rpilight/controller.py,
src/rpilight/sensors.py, src/app.py) and proofs about it.

Python floats are modelled as rationals (the program only compares and clamps
them, never relies on rounding), `datetime.time` values as a record of clock
fields compared by their microseconds-since-midnight value, and exceptions as
`Except` results.  The background loop `LightController._loop` is modelled as a
per-tick transition function plus a fold over a list of per-tick sensor-read
outcomes; each tick additionally reports the list of hardware commands it
issued.
-/

namespace RPiWeb

/-- Model of Python `datetime.time`: hour/minute/second/microsecond.
`datetime.time` objects compare by their clock value, which (for in-range
fields) coincides with comparing microseconds since midnight. -/
structure DTime where
  hour : Nat
  minute : Nat
  second : Nat := 0
  microsecond : Nat := 0
  deriving DecidableEq, Repr

/-- Microseconds since midnight, the comparison key for `DTime`. -/
def DTime.toMicros (t : DTime) : Nat :=
  ((t.hour * 60 + t.minute) * 60 + t.second) * 1000000 + t.microsecond

/-- Comparison `a < b` on `datetime.time` values. -/
def DTime.lt (a b : DTime) : Bool :=
  decide (a.toMicros < b.toMicros)

/-- Comparison `a <= b` on `datetime.time` values. -/
def DTime.le (a b : DTime) : Bool :=
  decide (a.toMicros ≤ b.toMicros)

/-- An exception raised by a sensor read (`sensor.read()` in the loop is
wrapped in `try`/`except Exception`). -/
inductive SensorError where
  | readFailure
  deriving DecidableEq, Repr

/-- Source `TimeOfDaySensor` (src/rpilight/sensors.py): virtual sensor holding the
configured `evening_time` and `morning_time` boundaries. -/
structure TimeOfDaySensor where
  evening_time : DTime
  morning_time : DTime
  deriving DecidableEq, Repr

/-- Source `TimeOfDaySensor._is_dark`: if `evening_time < morning_time` then dark iff
`evening_time <= current <= morning_time`; otherwise dark iff
`current >= evening_time or current <= morning_time`. -/
def TimeOfDaySensor.is_dark (s : TimeOfDaySensor) (current : DTime) : Bool :=
  if s.evening_time.lt s.morning_time then
    s.evening_time.le current && current.le s.morning_time
  else
    s.evening_time.le current || current.le s.morning_time

/-- Source `TimeOfDaySensor.read`: `0.0 if is_dark else 1.0`, at the current clock
time `now` (passed explicitly here; the source calls `datetime.now().time()`).
The body is a pure computation with no raising path, hence always `.ok`. -/
def TimeOfDaySensor.read (s : TimeOfDaySensor) (now : DTime) : Except SensorError ℚ :=
  Except.ok (if s.is_dark now then 0 else 1)

/-- Source `FixedValueSensor` (src/rpilight/sensors.py): returns a predetermined value. -/
structure FixedValueSensor where
  value : ℚ
  deriving DecidableEq, Repr

/-- Source `FixedValueSensor.read`: returns `self._value`; never raises. -/
def FixedValueSensor.read (s : FixedValueSensor) : Except SensorError ℚ :=
  Except.ok s.value

/-- Source `LightHardwareInterface` (src/rpilight/controller.py): its only state is
`self._state : bool`.  The wrapped `on_func`/`off_func` callables are side
effects on the peripheral (or logging) and carry no further model state. -/
structure LightHardwareInterface where
  state : Bool
  deriving DecidableEq, Repr

/-- Source `LightHardwareInterface.__init__`: sets `self._state = False`. -/
def LightHardwareInterface.init : LightHardwareInterface :=
  { state := false }

/-- Source `LightHardwareInterface.is_on` property: returns `self._state`. -/
def LightHardwareInterface.is_on (h : LightHardwareInterface) : Bool :=
  h.state

/-- Source `LightHardwareInterface.turn_on`: calls `on_func` then sets `_state = True`. -/
def LightHardwareInterface.turn_on (_h : LightHardwareInterface) : LightHardwareInterface :=
  { state := true }

/-- Source `LightHardwareInterface.turn_off`: calls `off_func` then sets `_state = False`. -/
def LightHardwareInterface.turn_off (_h : LightHardwareInterface) : LightHardwareInterface :=
  { state := false }

/-- Source `DummyHardware.__init__`: installs no-op callables and calls
`LightHardwareInterface.__init__`. -/
def DummyHardware.init : LightHardwareInterface :=
  LightHardwareInterface.init

/-- Source `GPIOHardware.__init__(pin)`: raises `RuntimeError` when `gpiozero` cannot
be imported, otherwise constructs the `OutputDevice` and calls
`LightHardwareInterface.__init__`.  `gpiozero_available` models whether that
package can be imported in the running environment. -/
def GPIOHardware.init (gpiozero_available : Bool) (_pin : ℤ) :
    Except String LightHardwareInterface :=
  if gpiozero_available then
    Except.ok LightHardwareInterface.init
  else
    Except.error "gpiozero is required for GPIOHardware but could not be imported"

/-- Source `GPIONativeLightSensor.__init__(pin)` (src/rpilight/sensors.py): raises
`RuntimeError` when `gpiozero` cannot be imported, otherwise constructs the
`LightSensor`. -/
def GPIONativeLightSensor.init (gpiozero_available : Bool) (_pin : ℤ) :
    Except String Unit :=
  if gpiozero_available then
    Except.ok ()
  else
    Except.error "gpiozero is required for GPIONativeLightSensor but could not be imported"

/-- A hardware command issued through the `LightHardwareInterface`. -/
inductive HWCommand where
  | turnOn
  | turnOff
  deriving DecidableEq, Repr

/-- Mutable state of `LightController` (src/rpilight/controller.py).  The
`sensor` field of the source is reduced to whether a sensor is configured
(`sensor is not None`); the per-tick result of `sensor.read()` is supplied to
`tick` as an `Except` value so that all sensor variants (and their failures)
are covered. -/
structure LightController where
  hardware : LightHardwareInterface
  has_sensor : Bool
  poll_interval : ℚ
  darkness_threshold : ℚ
  auto_enabled : Bool
  last_sensor_value : Option ℚ
  stop_event : Bool
  deriving DecidableEq, Repr

/-- Source `LightController.is_on` property: returns `self.hardware.is_on`. -/
def LightController.is_on (c : LightController) : Bool :=
  c.hardware.is_on

/-- One iteration of the body of `LightController._loop`: when
`self.auto_enabled and self.sensor is not None`, attempt the read; on success
store `_last_sensor_value` and command `turn_on` iff
`value <= self.darkness_threshold`, else `turn_off`; on exception only log
(`_last_sensor_value` is assigned after `read()` returns, so it is untouched).
Returns the new state and the hardware commands issued this tick. -/
def LightController.tick (c : LightController) (read_result : Except SensorError ℚ) :
    LightController × List HWCommand :=
  if c.auto_enabled && c.has_sensor then
    match read_result with
    | Except.ok value =>
      let c1 := { c with last_sensor_value := some value }
      if value ≤ c.darkness_threshold then
        ({ c1 with hardware := c1.hardware.turn_on }, [HWCommand.turnOn])
      else
        ({ c1 with hardware := c1.hardware.turn_off }, [HWCommand.turnOff])
    | Except.error _ => (c, [])
  else
    (c, [])

/-- The `while not self._stop_event.is_set()` loop of `LightController._loop`,
run over a list of per-tick sensor-read outcomes: the stop event is checked at
each tick boundary, and the commands issued by successive ticks are
concatenated. -/
def LightController.run (c : LightController) :
    List (Except SensorError ℚ) → LightController × List HWCommand
  | [] => (c, [])
  | r :: rs =>
    if c.stop_event then
      (c, [])
    else
      let step := c.tick r
      let rest := step.1.run rs
      (rest.1, step.2 ++ rest.2)

/-- Source `LightController.set_auto(enabled)`: sets `self.auto_enabled = enabled`
and nothing else. -/
def LightController.set_auto (c : LightController) (enabled : Bool) : LightController :=
  { c with auto_enabled := enabled }

/-- Source `LightController.set_manual(on)`: sets `self.auto_enabled = False` and
immediately commands `turn_on` or `turn_off`. -/
def LightController.set_manual (c : LightController) (turn_on : Bool) : LightController :=
  let c1 := { c with auto_enabled := false }
  if turn_on then
    { c1 with hardware := c1.hardware.turn_on }
  else
    { c1 with hardware := c1.hardware.turn_off }

/-- What `LightController.shutdown` does and surfaces.  The source sets the
stop event, then calls `self._thread.join(timeout=self.poll_interval * 2)`;
`join`'s outcome is not inspected and the method returns `None`. -/
structure ShutdownOutcome where
  join_timeout : ℚ
  reported_failure : Bool
  deriving DecidableEq, Repr

/-- Source `LightController.shutdown`: sets `self._stop_event` and joins the loop
thread with timeout `poll_interval * 2`.  Whether the loop thread actually
exited within the timeout is supplied as `_loop_exited_in_time`; the source
discards it (`Thread.join(timeout=...)` returns `None`) and reports nothing. -/
def LightController.shutdown (c : LightController) (_loop_exited_in_time : Bool) :
    LightController × ShutdownOutcome :=
  ({ c with stop_event := true },
   { join_timeout := c.poll_interval * 2, reported_failure := false })

/-- A JSON value that can appear under `"value"` in the body of
`POST /api/threshold` (src/app.py), as produced by `request.get_json`. -/
inductive JVal where
  | jnum (q : ℚ)
  | jstr (s : String)
  | jbool (b : Bool)
  | jnull
  deriving DecidableEq, Repr

/-- Numeric value of a list of decimal digit characters, most significant
first. -/
def decDigitsVal (cs : List Char) : ℕ :=
  cs.foldl (fun n c => 10 * n + (c.toNat - 48)) 0

/-- Model of Python's builtin `float()` applied to a string: whitespace is
stripped, then an optional sign followed by a plain decimal literal
(`digits`, `digits.digits`, `.digits` or `digits.`) is accepted; anything
else raises `ValueError`.  (Exponent, `inf`/`nan` and underscore forms also
accepted by CPython are outside what this development exercises and are not
modelled.) -/
def pyFloatOfString (s : String) : Except String ℚ :=
  let cs := ((s.toList.dropWhile Char.isWhitespace).reverse.dropWhile Char.isWhitespace).reverse
  let signed : ℚ × List Char :=
    match cs with
    | '+' :: rest => (1, rest)
    | '-' :: rest => (-1, rest)
    | _ => (1, cs)
  let intPart := signed.2.takeWhile Char.isDigit
  let rest := signed.2.dropWhile Char.isDigit
  match rest with
  | [] =>
    if intPart.isEmpty then
      Except.error "ValueError: could not convert string to float"
    else
      Except.ok (signed.1 * decDigitsVal intPart)
  | '.' :: fracPart =>
    if fracPart.all Char.isDigit && !(intPart.isEmpty && fracPart.isEmpty) then
      Except.ok
        (signed.1 * (decDigitsVal intPart + decDigitsVal fracPart / 10 ^ fracPart.length))
    else
      Except.error "ValueError: could not convert string to float"
  | _ => Except.error "ValueError: could not convert string to float"

/-- Model of `float(payload["value"])` in `api_threshold` (src/app.py).
`none` is an absent key (`KeyError`); `float` coerces numbers, booleans
(`bool` is an `int` subclass: `float(True) == 1.0`) and numeric strings, and
raises `TypeError` on `None` (and other non-scalar values). -/
def pyFloat : Option JVal → Except String ℚ
  | none => Except.error "KeyError: value"
  | some (JVal.jnum q) => Except.ok q
  | some (JVal.jbool b) => Except.ok (if b then 1 else 0)
  | some (JVal.jstr s) => pyFloatOfString s
  | some JVal.jnull => Except.error "TypeError: float() argument"

/-- HTTP response of `POST /api/threshold`: either the stored threshold, or
`({"error": "Invalid threshold"}, 400)`. -/
inductive ThresholdResponse where
  | ok (darkness_threshold : ℚ)
  | invalid
  deriving DecidableEq, Repr

/-- Source `api_threshold` (src/app.py): tries `float(payload["value"])`; on
`KeyError`/`TypeError`/`ValueError` returns the 400 error without touching the
controller; on success stores `max(0.0, min(1.0, threshold))` and returns it. -/
def api_threshold (c : LightController) (payload_value : Option JVal) :
    LightController × ThresholdResponse :=
  match pyFloat payload_value with
  | Except.error _ => (c, ThresholdResponse.invalid)
  | Except.ok threshold =>
    let c1 := { c with darkness_threshold := max 0 (min 1 threshold) }
    (c1, ThresholdResponse.ok c1.darkness_threshold)

/-- Which hardware variant the builder ended up with. -/
inductive HardwareChoice where
  | gpio
  | dummy
  deriving DecidableEq, Repr

/-- Which sensor variant the builder ended up with. -/
inductive SensorChoice where
  | gpioNative (pin : ℤ)
  | timeOfDay (evening morning : DTime)
  deriving DecidableEq, Repr

/-- Result of `build_default_controller`: the selected variants, whether the
dummy-hardware fallback warning was logged, and the constructed controller. -/
structure BuiltController where
  hardware_choice : HardwareChoice
  warned_fallback : Bool
  sensor_choice : SensorChoice
  controller : LightController
  deriving DecidableEq, Repr

/-- Source `build_default_controller` (src/rpilight/controller.py): when `use_gpio`,
tries `GPIOHardware(pin=relay_pin)` and on `RuntimeError` logs a warning and
falls back to `DummyHardware()`; when a `sensor_pin` is given, constructs
`GPIONativeLightSensor(pin=sensor_pin)` with no surrounding `try`, so its
`RuntimeError` propagates; otherwise uses the `TimeOfDaySensor`.  The
controller is built with the dataclass defaults `poll_interval=5.0`,
`auto_enabled=True`, `_last_sensor_value=None`. -/
def build_default_controller (gpiozero_available : Bool) (use_gpio : Bool)
    (relay_pin : ℤ) (sensor_pin : Option ℤ) (darkness_threshold : ℚ)
    (evening_time morning_time : DTime) : Except String BuiltController :=
  let hw : LightHardwareInterface × HardwareChoice × Bool :=
    if use_gpio then
      match GPIOHardware.init gpiozero_available relay_pin with
      | Except.ok h => (h, HardwareChoice.gpio, false)
      | Except.error _ => (DummyHardware.init, HardwareChoice.dummy, true)
    else
      (DummyHardware.init, HardwareChoice.dummy, false)
  let mk : SensorChoice → BuiltController := fun sc =>
    { hardware_choice := hw.2.1
      warned_fallback := hw.2.2
      sensor_choice := sc
      controller :=
        { hardware := hw.1
          has_sensor := true
          poll_interval := 5
          darkness_threshold := darkness_threshold
          auto_enabled := true
          last_sensor_value := none
          stop_event := false } }
  match sensor_pin with
  | some p =>
    match GPIONativeLightSensor.init gpiozero_available p with
    | Except.error e => Except.error e
    | Except.ok _ => Except.ok (mk (SensorChoice.gpioNative p))
  | none => Except.ok (mk (SensorChoice.timeOfDay evening_time morning_time))

/-- Shorthand for `datetime.time(hour, minute)` (second and microsecond
default to 0, as in Python). -/
def DTime.hm (hour minute : Nat) : DTime :=
  { hour := hour, minute := minute }

/-- A concrete controller in Auto mode with a sensor configured, the dataclass
defaults `poll_interval=5.0` and `darkness_threshold=0.3`, and freshly
initialized hardware; used to instantiate theorems at concrete states. -/
def sampleAuto : LightController :=
  { hardware := LightHardwareInterface.init
    has_sensor := true
    poll_interval := 5
    darkness_threshold := 3/10
    auto_enabled := true
    last_sensor_value := none
    stop_event := false }

/-- The concrete result of `build_default_controller` with `use_gpio=False`,
no sensor pin, threshold 0.3 and the default 21:00/06:00 window. -/
def sampleBuilt : BuiltController :=
  { hardware_choice := HardwareChoice.dummy
    warned_fallback := false
    sensor_choice := SensorChoice.timeOfDay (DTime.hm 21 0) (DTime.hm 6 0)
    controller :=
      { hardware := LightHardwareInterface.init
        has_sensor := true
        poll_interval := 5
        darkness_threshold := 3/10
        auto_enabled := true
        last_sensor_value := none
        stop_event := false } }

/-- C1: in an evaluation tick with Mode Auto and a sensor configured, a
successful read of value `v` stores `v` as LastReading, ends with SwitchState
on exactly when `v <= DarknessThreshold`, and commands `turn_on` when
`v <= DarknessThreshold` and `turn_off` otherwise. -/
theorem C1_auto_tick_drives_switch (c : LightController) (v : ℚ)
    (hauto : c.auto_enabled = true) (hsens : c.has_sensor = true) :
    (c.tick (Except.ok v)).1.last_sensor_value = some v ∧
    ((c.tick (Except.ok v)).1.is_on = true ↔ v ≤ c.darkness_threshold) ∧
    (c.tick (Except.ok v)).2 =
      [if v ≤ c.darkness_threshold then HWCommand.turnOn else HWCommand.turnOff] := by
  by_cases hv : v ≤ c.darkness_threshold <;>
    simp [LightController.tick, hauto, hsens, hv, LightController.is_on,
      LightHardwareInterface.is_on, LightHardwareInterface.turn_on,
      LightHardwareInterface.turn_off]

/-- C1 witness: the theorem instantiated at a concrete Auto-mode controller
(threshold 0.3) and the concrete reading 0.2. -/
theorem C1_witness :
    (sampleAuto.tick (Except.ok (1/5))).1.last_sensor_value = some (1/5) ∧
    ((sampleAuto.tick (Except.ok (1/5))).1.is_on = true ↔
      (1 : ℚ)/5 ≤ sampleAuto.darkness_threshold) ∧
    (sampleAuto.tick (Except.ok (1/5))).2 =
      [if (1 : ℚ)/5 ≤ sampleAuto.darkness_threshold then HWCommand.turnOn
       else HWCommand.turnOff] :=
  C1_auto_tick_drives_switch sampleAuto (1/5) rfl rfl

/-- C2: a tick whose sensor read raises leaves the whole controller state
(hence LastReading and SwitchState) unchanged, issues no hardware command, and
the loop goes on to process the remaining ticks exactly as it would have
without the failing tick. -/
theorem C2_failed_read_isolated (c : LightController) (e : SensorError)
    (rs : List (Except SensorError ℚ)) (hstop : c.stop_event = false) :
    (c.tick (Except.error e)).1 = c ∧
    (c.tick (Except.error e)).2 = [] ∧
    c.run (Except.error e :: rs) = c.run rs := by
  have htick : c.tick (Except.error e) = (c, []) := by
    unfold LightController.tick
    split <;> rfl
  refine ⟨by rw [htick], by rw [htick], ?_⟩
  simp [LightController.run, hstop, htick]

/-- C2 witness: a failing read at a concrete Auto-mode controller followed by
one successful tick. -/
theorem C2_witness :
    (sampleAuto.tick (Except.error SensorError.readFailure)).1 = sampleAuto ∧
    (sampleAuto.tick (Except.error SensorError.readFailure)).2 = [] ∧
    sampleAuto.run (Except.error SensorError.readFailure :: [Except.ok 1]) =
      sampleAuto.run [Except.ok 1] :=
  C2_failed_read_isolated sampleAuto SensorError.readFailure [Except.ok 1] rfl

/-- C3: while Mode is Manual (`auto_enabled = False`), a tick performs no
hardware action and changes nothing (in particular LastReading and SwitchState
are untouched), and `set_auto False` itself sets Manual mode without changing
SwitchState. -/
theorem C3_manual_mode_inert (c : LightController) (r : Except SensorError ℚ)
    (hman : c.auto_enabled = false) :
    (c.tick r).1 = c ∧
    (c.tick r).2 = [] ∧
    (c.set_auto false).is_on = c.is_on ∧
    (c.set_auto false).auto_enabled = false := by
  refine ⟨?_, ?_, rfl, rfl⟩ <;> simp [LightController.tick, hman]

/-- C3 witness: a Manual-mode controller ticking on a dark reading. -/
theorem C3_witness :
    ((sampleAuto.set_auto false).tick (Except.ok 0)).1 = sampleAuto.set_auto false ∧
    ((sampleAuto.set_auto false).tick (Except.ok 0)).2 = [] ∧
    ((sampleAuto.set_auto false).set_auto false).is_on = (sampleAuto.set_auto false).is_on ∧
    ((sampleAuto.set_auto false).set_auto false).auto_enabled = false :=
  C3_manual_mode_inert (sampleAuto.set_auto false) (Except.ok 0) rfl

/-- C4: for every configured pair of boundaries and every current time, the
time-window sensor's read never fails and returns exactly 0 when dark and
exactly 1 otherwise, where dark means `evening <= now <= morning` when
`evening < morning`, and `now >= evening or now <= morning` otherwise. -/
theorem C4_time_window_read (s : TimeOfDaySensor) (now : DTime) :
    s.read now = Except.ok
      (if (if s.evening_time.toMicros < s.morning_time.toMicros then
            s.evening_time.toMicros ≤ now.toMicros ∧ now.toMicros ≤ s.morning_time.toMicros
           else
            now.toMicros ≥ s.evening_time.toMicros ∨ now.toMicros ≤ s.morning_time.toMicros)
       then (0 : ℚ) else 1) := by
  simp only [TimeOfDaySensor.read, TimeOfDaySensor.is_dark, DTime.lt, DTime.le, ge_iff_le,
    decide_eq_true_eq, Bool.and_eq_true, Bool.or_eq_true]
  split_ifs <;> simp_all

/-- C5: `set_manual x` always ends with Mode Manual and `is_on = x`; the mode
change and the hardware command happen in the same call (the resulting
hardware is exactly the prior hardware with `turn_on`/`turn_off` applied). -/
theorem C5_set_manual_overrides (c : LightController) (x : Bool) :
    (c.set_manual x).auto_enabled = false ∧
    (c.set_manual x).is_on = x ∧
    (c.set_manual x).hardware =
      (if x then c.hardware.turn_on else c.hardware.turn_off) := by
  cases x <;>
    simp [LightController.set_manual, LightController.is_on, LightHardwareInterface.is_on,
      LightHardwareInterface.turn_on, LightHardwareInterface.turn_off]

/-- C6: for every numeric threshold input `t`, the threshold command stores
exactly `max 0 (min 1 t)` and answers with the stored value — out-of-range
numbers are clamped, never rejected, and nothing else in the controller
changes. -/
theorem C6_threshold_numeric_clamped (c : LightController) (t : ℚ) :
    (api_threshold c (some (JVal.jnum t))).1 =
      { c with darkness_threshold := max 0 (min 1 t) } ∧
    (api_threshold c (some (JVal.jnum t))).2 =
      ThresholdResponse.ok (max 0 (min 1 t)) := by
  simp [api_threshold, pyFloat]

/-- C7 counterexample: the boolean payload `true` is an invalid, non-numeric
threshold input, yet `float(True)` coerces it to `1.0`, so the command
succeeds and mutates DarknessThreshold (from 0.3 to 1) instead of failing with
a validation error — refuting the claim at this concrete input.  A numeric
string is likewise silently coerced. -/
theorem C7_counterexample :
    (api_threshold sampleAuto (some (JVal.jbool true))).2 = ThresholdResponse.ok 1 ∧
    (api_threshold sampleAuto (some (JVal.jbool true))).1.darkness_threshold = 1 ∧
    sampleAuto.darkness_threshold ≠ 1 ∧
    (api_threshold sampleAuto (some (JVal.jstr "0.5"))).2 =
      ThresholdResponse.ok (1/2) := by
  have hs : pyFloatOfString "0.5" = Except.ok (1/2) := by
    show Except.ok (1 * ((0 : ℚ) + 5 / 10 ^ 1)) = _
    norm_num
  refine ⟨rfl, rfl, ?_, ?_⟩
  · simp [sampleAuto]
    norm_num
  · simp [api_threshold, pyFloat, hs]
    norm_num [min_def, max_def]

/-- C7 amended: for every threshold input on which the `float()` conversion
fails (absent key, `null`, or a non-numeric string), the command answers with
the distinguishable 400 "Invalid threshold" error and mutates no controller
state; boolean and numeric-string inputs, however, are silently coerced. -/
theorem C7_nonconvertible_rejected (c : LightController) (pv : Option JVal) (e : String)
    (h : pyFloat pv = Except.error e) :
    (api_threshold c pv).1 = c ∧
    (api_threshold c pv).2 = ThresholdResponse.invalid := by
  simp [api_threshold, h]

/-- C7 witness: the `null` payload is rejected and the controller is left
untouched. -/
theorem C7_witness :
    (api_threshold sampleAuto (some JVal.jnull)).1 = sampleAuto ∧
    (api_threshold sampleAuto (some JVal.jnull)).2 = ThresholdResponse.invalid :=
  C7_nonconvertible_rejected sampleAuto (some JVal.jnull) "TypeError: float() argument" rfl

/-- C8 counterexample: in an environment where `gpiozero` cannot be imported,
requesting a peripheral sensor (`sensor_pin = 4`) makes the builder raise the
sensor's `RuntimeError` to the caller instead of substituting a fallback —
refuting the claim that the builder never propagates a hard error. -/
theorem C8_counterexample :
    build_default_controller false false 17 (some 4) (3/10) (DTime.hm 21 0) (DTime.hm 6 0) =
      Except.error "gpiozero is required for GPIONativeLightSensor but could not be imported" :=
  rfl

/-- C8 amended: in an environment where peripheral acquisition fails, the
builder recovers a requested peripheral Hardware Switch by substituting the
no-op variant and logging a warning and still returns a controller; but a
requested peripheral sensor is not recovered — its acquisition error
propagates to the caller. -/
theorem C8_hw_substituted_sensor_raised (avail : Bool) (relay_pin p : ℤ) (dt : ℚ)
    (ev mo : DTime) (havail : avail = false) :
    (∃ b, build_default_controller avail true relay_pin none dt ev mo = Except.ok b ∧
      b.hardware_choice = HardwareChoice.dummy ∧ b.warned_fallback = true) ∧
    (∃ e, build_default_controller avail true relay_pin (some p) dt ev mo =
      Except.error e) := by
  subst havail
  exact ⟨⟨_, rfl, rfl, rfl⟩, _, rfl⟩

/-- C8 witness: the amended statement at the concrete failing environment,
relay pin 17 and sensor pin 4. -/
theorem C8_witness :
    (∃ b, build_default_controller false true 17 none (3/10) (DTime.hm 21 0) (DTime.hm 6 0) =
      Except.ok b ∧ b.hardware_choice = HardwareChoice.dummy ∧ b.warned_fallback = true) ∧
    (∃ e, build_default_controller false true 17 (some 4) (3/10) (DTime.hm 21 0)
      (DTime.hm 6 0) = Except.error e) :=
  C8_hw_substituted_sensor_raised false 17 4 (3/10) (DTime.hm 21 0) (DTime.hm 6 0) rfl

/-- C9 counterexample: even at a concrete input where the loop thread did not
exit within the join bound, `shutdown` reports no failure, and its outcome is
identical to the one where the loop did exit — the source discards `join`'s
result and returns `None`, so it returns as if shutdown had succeeded. -/
theorem C9_counterexample :
    (sampleAuto.shutdown false).2.reported_failure = false ∧
    (sampleAuto.shutdown false).2 = (sampleAuto.shutdown true).2 :=
  ⟨rfl, rfl⟩

/-- C9 amended: `shutdown` sets the stop event — so the loop stops at its next
wake point and issues no further hardware command — and joins the loop thread
with timeout exactly `2 * poll_interval`, bounding how long the caller blocks;
but when the loop has not exited within that bound it does not report this: it
returns normally, with no failure surfaced, regardless. -/
theorem C9_shutdown_bounded_silent (c : LightController) (exited : Bool) :
    (c.shutdown exited).1.stop_event = true ∧
    (c.shutdown exited).2.join_timeout = c.poll_interval * 2 ∧
    (c.shutdown exited).2.reported_failure = false ∧
    ∀ rs, (c.shutdown exited).1.run rs = ((c.shutdown exited).1, []) := by
  refine ⟨rfl, rfl, rfl, fun rs => ?_⟩
  cases rs with
  | nil => rfl
  | cons r rs => simp [LightController.run, LightController.shutdown]

/-- Helper for C10: a tick that does not emit `turnOn` leaves a switched-off
light switched off. -/
theorem tick_is_on_false_of_no_turnOn (c : LightController) (r : Except SensorError ℚ)
    (h : c.is_on = false) (hno : HWCommand.turnOn ∉ (c.tick r).2) :
    (c.tick r).1.is_on = false := by
  cases r with
  | ok v =>
    by_cases hb : (c.auto_enabled && c.has_sensor) = true
    · by_cases hv : v ≤ c.darkness_threshold
      · simp [LightController.tick, hb, hv] at hno
      · simp [LightController.tick, hb, hv, LightController.is_on,
          LightHardwareInterface.is_on, LightHardwareInterface.turn_off]
    · simp [LightController.tick, hb, h]
  | error e =>
    have htick : c.tick (Except.error e) = (c, []) := by
      unfold LightController.tick
      split <;> rfl
    rw [htick]
    exact h

/-- Helper for C10: a run of the loop that never emits `turnOn` leaves a
switched-off light switched off. -/
theorem run_is_on_false_of_no_turnOn (c : LightController)
    (rs : List (Except SensorError ℚ)) (h : c.is_on = false)
    (hno : HWCommand.turnOn ∉ (c.run rs).2) :
    (c.run rs).1.is_on = false := by
  induction rs generalizing c with
  | nil => exact h
  | cons r rs ih =>
    by_cases hs : c.stop_event = true
    · simp only [LightController.run, hs, if_true]
      exact h
    · rw [Bool.not_eq_true] at hs
      simp only [LightController.run, hs, Bool.false_eq_true, if_false, List.mem_append,
        not_or] at hno ⊢
      exact ih _ (tick_is_on_false_of_no_turnOn c r h hno.1) hno.2

/-- Helper for C10: every controller the builder returns carries freshly
initialized hardware (state `False`), whichever variants were selected. -/
theorem build_hardware_init (avail use_gpio : Bool) (relay_pin : ℤ)
    (sensor_pin : Option ℤ) (dt : ℚ) (ev mo : DTime) (b : BuiltController)
    (hb : build_default_controller avail use_gpio relay_pin sensor_pin dt ev mo =
      Except.ok b) :
    b.controller.hardware = LightHardwareInterface.init := by
  cases use_gpio <;> cases avail <;> cases sensor_pin <;>
    simp [build_default_controller, GPIOHardware.init, GPIONativeLightSensor.init,
      DummyHardware.init] at hb <;>
    simp [← hb]

/-- C10: a newly constructed Hardware Switch reports off — the base
constructor, the no-op variant and the peripheral variant (when it can be
acquired) all start with state `False` — hence every controller the builder
returns starts with `is_on = False`, and it stays off through any run of the
evaluation loop that issues no `turnOn` command and through a manual
off-command. -/
theorem C10_new_switch_off (avail use_gpio : Bool) (relay_pin : ℤ)
    (sensor_pin : Option ℤ) (dt : ℚ) (ev mo : DTime) (b : BuiltController)
    (hb : build_default_controller avail use_gpio relay_pin sensor_pin dt ev mo =
      Except.ok b)
    (rs : List (Except SensorError ℚ))
    (hno : HWCommand.turnOn ∉ (b.controller.run rs).2) :
    LightHardwareInterface.init.is_on = false ∧
    DummyHardware.init.is_on = false ∧
    GPIOHardware.init true relay_pin = Except.ok LightHardwareInterface.init ∧
    b.controller.is_on = false ∧
    (b.controller.run rs).1.is_on = false ∧
    (b.controller.set_manual false).is_on = false := by
  have hinit : b.controller.is_on = false := by
    rw [LightController.is_on, build_hardware_init avail use_gpio relay_pin sensor_pin
      dt ev mo b hb]
    rfl
  refine ⟨rfl, rfl, rfl, hinit, run_is_on_false_of_no_turnOn _ _ hinit hno, ?_⟩
  simp [LightController.set_manual, LightController.is_on, LightHardwareInterface.is_on,
    LightHardwareInterface.turn_off]

/-- C10 witness: the default dummy-hardware build with the time-window sensor,
run for one tick whose sensor read fails (so no command at all is issued). -/
theorem C10_witness :
    LightHardwareInterface.init.is_on = false ∧
    DummyHardware.init.is_on = false ∧
    GPIOHardware.init true 17 = Except.ok LightHardwareInterface.init ∧
    sampleBuilt.controller.is_on = false ∧
    (sampleBuilt.controller.run [Except.error SensorError.readFailure]).1.is_on = false ∧
    (sampleBuilt.controller.set_manual false).is_on = false :=
  C10_new_switch_off true false 17 none (3/10) (DTime.hm 21 0) (DTime.hm 6 0) sampleBuilt
    rfl [Except.error SensorError.readFailure] (by decide)

end RPiWeb
